import Mathlib

/-!
# Verification of the NWF metrics updater (`update_nwf_metrics.py`)

A shallow embedding of the scoring pass of `update_nwf_metrics.py`.
A stock record is a semi-structured mapping whose numeric fields are all
optional; we model it as a structure of `Option ℚ` fields (exact rational
arithmetic stands in for Python floats; all thresholds and weights in the
program are small decimal literals).  `stock.get(k, d)` becomes
`Option.getD`, and the nested `stock.get('ai_ensemble', {}).get('confidence', 50)`
becomes a single optional field `ai_confidence` with default `50`.

Python's `round(x, 2)` is round-half-to-even at two decimals and `int(x)`
is truncation toward zero; both are modelled exactly on ℚ.
-/

/-- One stock record.  The first ten fields are the inputs read by the
scorer; the last four are the derived metrics it writes back onto the
record (absent before processing). -/
structure Stock where
  price : Option ℚ := none
  ma20 : Option ℚ := none
  ma50 : Option ℚ := none
  macd : Option ℚ := none
  macd_signal : Option ℚ := none
  rsi : Option ℚ := none
  volatility : Option ℚ := none
  vol_spike : Option ℚ := none
  avg_volume : Option ℚ := none
  ai_confidence : Option ℚ := none
  nwf_score : Option ℚ := none
  nwf_confidence : Option ℤ := none
  liquidity_score : Option ℤ := none
  nwf_robust_score : Option ℚ := none
deriving DecidableEq

/-- Python's `round()` to an integer: round half to even. -/
def roundHalfEven (x : ℚ) : ℤ :=
  if x - ⌊x⌋ < 1/2 then ⌊x⌋
  else if x - ⌊x⌋ > 1/2 then ⌊x⌋ + 1
  else if ⌊x⌋ % 2 = 0 then ⌊x⌋ else ⌊x⌋ + 1

/-- Python's `round(x, 2)`: round half to even at two decimal places. -/
def round2 (x : ℚ) : ℚ := (roundHalfEven (x * 100) : ℚ) / 100

/-- Python's `int(x)`: truncation toward zero. -/
def truncInt (x : ℚ) : ℤ := if 0 ≤ x then ⌊x⌋ else -⌊-x⌋

/-- Signal 1 of `calculate_nwf_score`: trend (lines 32-38). -/
def trendScore (stock : Stock) : ℚ :=
  if stock.price.getD 0 > stock.ma20.getD 0 then 2.5
  else if stock.price.getD 0 > stock.ma50.getD 0 then 1.5
  else 0.5

/-- Signal 2 of `calculate_nwf_score`: MACD (lines 40-50). -/
def macdScore (stock : Stock) : ℚ :=
  let macd := stock.macd.getD 0
  let macd_signal := stock.macd_signal.getD 0
  if macd > macd_signal ∧ macd > 0 then 2.0
  else if macd > macd_signal then 1.5
  else if macd < 0 ∧ macd_signal < 0 then 0.5
  else 1.0

/-- Signal 3 of `calculate_nwf_score`: RSI (lines 52-63). -/
def rsiScore (stock : Stock) : ℚ :=
  let rsi := stock.rsi.getD 50
  if 40 ≤ rsi ∧ rsi ≤ 60 then 2.0
  else if 30 ≤ rsi ∧ rsi < 40 then 1.8
  else if 60 < rsi ∧ rsi ≤ 70 then 1.5
  else if rsi < 30 then 1.0
  else 0.5

/-- Signal 4 of `calculate_nwf_score`: volatility (lines 65-74). -/
def volatilityScore (stock : Stock) : ℚ :=
  let volatility := stock.volatility.getD 5.0
  if volatility < 3.0 then 1.5
  else if volatility < 5.0 then 1.2
  else if volatility < 8.0 then 0.8
  else 0.3

/-- Signal 5 of `calculate_nwf_score`: volume spike (lines 76-85). -/
def volSpikeScore (stock : Stock) : ℚ :=
  let vol_spike := stock.vol_spike.getD 1.0
  if vol_spike ≥ 2.0 then 1.0
  else if vol_spike ≥ 1.5 then 0.8
  else if vol_spike ≥ 1.0 then 0.6
  else 0.3

/-- Signal 6 of `calculate_nwf_score`: AI ensemble (lines 87-89). -/
def aiScore (stock : Stock) : ℚ :=
  (stock.ai_confidence.getD 50 / 100) * 1.0

/-- `NWFMetricsCalculator.calculate_nwf_score` (lines 20-91): the six
signal contributions accumulated onto `score`, rounded to 2 decimals. -/
def calculate_nwf_score (stock : Stock) : ℚ :=
  round2 (0.0 + trendScore stock + macdScore stock + rsiScore stock
    + volatilityScore stock + volSpikeScore stock + aiScore stock)

/-- The accumulated `base_conf` of `calculate_confidence` (lines 103-138),
before the final `int` truncation and clamping. -/
def confidenceBase (stock : Stock) : ℚ :=
  let base_conf : ℚ := 50
  let ai_conf := stock.ai_confidence.getD 50
  let base_conf := base_conf + (ai_conf - 50) * 0.3
  let volatility := stock.volatility.getD 5.0
  let base_conf :=
    if volatility < 4.0 then base_conf + 10
    else if volatility > 8.0 then base_conf - 10
    else base_conf
  let price := stock.price.getD 0
  let ma20 := stock.ma20.getD 0
  let ma50 := stock.ma50.getD 0
  let base_conf :=
    if price > ma20 ∧ ma20 > ma50 then base_conf + 15
    else if price < ma20 ∧ ma20 < ma50 then base_conf + 10
    else base_conf + 5
  let rsi := stock.rsi.getD 50
  let base_conf := if 30 ≤ rsi ∧ rsi ≤ 70 then base_conf + 10 else base_conf
  let macd := stock.macd.getD 0
  let macd_signal := stock.macd_signal.getD 0
  let base_conf :=
    if (macd > macd_signal ∧ price > ma20) ∨ (macd < macd_signal ∧ price < ma20)
    then base_conf + 10 else base_conf
  base_conf

/-- `NWFMetricsCalculator.calculate_confidence` (lines 93-140):
`min(95, max(50, int(base_conf)))`. -/
def calculate_confidence (stock : Stock) : ℤ :=
  min 95 (max 50 (truncInt (confidenceBase stock)))

/-- `NWFMetricsCalculator.calculate_liquidity_score` (lines 142-165). -/
def calculate_liquidity_score (stock : Stock) : ℤ :=
  let avg_volume := stock.avg_volume.getD 0
  if avg_volume ≥ 500000 then 9
  else if avg_volume ≥ 300000 then 8
  else if avg_volume ≥ 200000 then 7
  else if avg_volume ≥ 100000 then 6
  else if avg_volume ≥ 50000 then 5
  else 4

/-- `NWFMetricsCalculator.process_stock` (lines 167-183): writes the four
derived metrics onto the record in sequence; `nwf_robust_score` reads back
the two just-written fields, as the source does. -/
def process_stock (stock : Stock) : Stock :=
  let s1 := { stock with nwf_score := some (calculate_nwf_score stock) }
  let s2 := { s1 with nwf_confidence := some (calculate_confidence s1) }
  let s3 := { s2 with liquidity_score := some (calculate_liquidity_score s2) }
  let robust := round2 (s3.nwf_score.getD 0 * (((s3.nwf_confidence.getD 0 : ℤ) : ℚ) / 100))
  { s3 with nwf_robust_score := some robust }

/-- The sort key of `main`: `x.get('nwf_robust_score', 0)` (line 241). -/
def robustKey (s : Stock) : ℚ := s.nwf_robust_score.getD 0

/-- `data['stocks']` after the processing loop of `main` (lines 225-229):
every record enhanced in place, original order unchanged. -/
def processStocks (stocks : List Stock) : List Stock := stocks.map process_stock

/-- Stable insertion for descending order by `robustKey`: a new element
goes in front of the first element whose key it is ≥, so an earlier
element precedes later elements of equal key. -/
def insertDesc (x : Stock) : List Stock → List Stock
  | [] => [x]
  | y :: ys => if robustKey y ≤ robustKey x then x :: y :: ys else y :: insertDesc x ys

/-- Python's `sorted(stocks, key=robustKey, reverse=True)` (lines 239-243):
a stable descending sort by `nwf_robust_score`. -/
def sortByRobustDesc : List Stock → List Stock
  | [] => []
  | x :: xs => insertDesc x (sortByRobustDesc xs)

/-- `stocks_sorted` of `main` (lines 239-243): used only for the top-10
console report (lines 259-266). -/
def stocks_sorted (stocks : List Stock) : List Stock :=
  sortByRobustDesc (processStocks stocks)

/-- The `stocks` list that `json.dump(data, ...)` writes (lines 247-248):
`data['stocks']` is the processed list in its original order — `main`
never assigns `stocks_sorted` back into `data`. -/
def writtenStocks (stocks : List Stock) : List Stock := processStocks stocks

/-- A list is sorted descending by `nwf_robust_score`: each adjacent pair
has a non-increasing key. -/
def SortedDescByRobust (l : List Stock) : Prop :=
  l.Chain' (fun a b => robustKey b ≤ robustKey a)

/-- The all-default record `{}`. -/
def emptyStock : Stock := {}

/-- A record with every input field present. -/
def fullStock : Stock :=
  { price := some 100, ma20 := some 95, ma50 := some 90
    macd := some 1.2, macd_signal := some 0.8, rsi := some 55
    volatility := some 2.5, vol_spike := some 2.2
    avg_volume := some 600000, ai_confidence := some 80 }

/-- A record missing no field, with `ai_ensemble.confidence = 200` and all
other signals at their maximal branches. -/
def hotStock : Stock :=
  { price := some 100, ma20 := some 90, ma50 := some 80
    macd := some 1, macd_signal := some 0.5, rsi := some 50
    volatility := some 2, vol_spike := some 2.5
    avg_volume := some 600000, ai_confidence := some 200 }

/-- A record with the documented defaults substituted for every absent
input field (§3 of the spec); derived fields are left as they are. -/
def fillDefaults (s : Stock) : Stock :=
  { price := some (s.price.getD 0), ma20 := some (s.ma20.getD 0)
    ma50 := some (s.ma50.getD 0), macd := some (s.macd.getD 0)
    macd_signal := some (s.macd_signal.getD 0), rsi := some (s.rsi.getD 50)
    volatility := some (s.volatility.getD 5.0), vol_spike := some (s.vol_spike.getD 1.0)
    avg_volume := some (s.avg_volume.getD 0), ai_confidence := some (s.ai_confidence.getD 50)
    nwf_score := s.nwf_score, nwf_confidence := s.nwf_confidence
    liquidity_score := s.liquidity_score, nwf_robust_score := s.nwf_robust_score }

/-- A record in the lowest monotonicity witness tier (`avg_volume` 60000). -/
def lowVolStock : Stock := { avg_volume := some 60000 }

/-- A record in a higher volume tier (`avg_volume` 250000). -/
def highVolStock : Stock := { avg_volume := some 250000 }

/-- A two-record input document: the all-default record first, the
fully-populated high-scoring record second. -/
def pipelineInput : List Stock := [emptyStock, fullStock]

/-- C4: for every processed record, `nwf_robust_score` is exactly
`round(nwf_score * nwf_confidence / 100, 2)` computed from the
`nwf_score` and `nwf_confidence` written on that same record in the
same pass. -/
theorem robust_score_consistency (s : Stock) :
    (process_stock s).nwf_robust_score =
      some (round2 ((process_stock s).nwf_score.getD 0 *
        ((((process_stock s).nwf_confidence.getD 0 : ℤ) : ℚ) / 100))) := rfl

/-- C9: `process_stock` is idempotent — the derived fields are written,
never read as inputs, so a second application overwrites them with the
identical values. -/
theorem process_stock_idempotent (s : Stock) :
    process_stock (process_stock s) = process_stock s := rfl

/-- C5: a record with any subset of numeric fields missing yields the
same four derived metrics as the record with the documented defaults
filled in; processing never fails on absent fields (the embedding is a
total function). -/
theorem missing_fields_default_equiv (s : Stock) :
    (process_stock (fillDefaults s)).nwf_score = (process_stock s).nwf_score ∧
    (process_stock (fillDefaults s)).nwf_confidence = (process_stock s).nwf_confidence ∧
    (process_stock (fillDefaults s)).liquidity_score = (process_stock s).liquidity_score ∧
    (process_stock (fillDefaults s)).nwf_robust_score = (process_stock s).nwf_robust_score :=
  ⟨rfl, rfl, rfl, rfl⟩

/-- C3: for every record, `nwf_confidence` lies in `[50, 95]` — the
accumulated value is truncated to an integer and clamped at the end
only, so even extreme inputs stay in the band. -/
theorem confidence_bounds (s : Stock) :
    50 ≤ calculate_confidence s ∧ calculate_confidence s ≤ 95 := by
  unfold calculate_confidence
  generalize truncInt (confidenceBase s) = t
  omega

/-- C2 counterexample: processing the all-default record `{}` yields
`nwf_score = 5.4` and `nwf_robust_score = 3.51`, not the claimed `5.5`
and `3.58`: the default volatility `5.0` falls through to the `< 8.0`
branch (`0.8`, not `1.2`) and the default `vol_spike = 1.0` hits the
`>= 1.0` branch (`0.6`, not `0.3`). -/
theorem empty_record_defaults_refute :
    (process_stock emptyStock).nwf_score = some 5.4 ∧ (5.4 : ℚ) ≠ 5.5 ∧
    (process_stock emptyStock).nwf_robust_score = some 3.51 ∧ (3.51 : ℚ) ≠ 3.58 := by
  refine ⟨?_, by norm_num, ?_, by norm_num⟩ <;>
    norm_num [process_stock, calculate_nwf_score, trendScore, macdScore, rsiScore,
      volatilityScore, volSpikeScore, aiScore, calculate_confidence, confidenceBase,
      truncInt, calculate_liquidity_score, round2, roundHalfEven, emptyStock]

/-- C2 (amended): processing the all-default record `{}` yields
`nwf_score = 5.4` (trend 0.5 + macd 1.0 + rsi 2.0 + volatility 0.8 +
volume spike 0.6 + ai 0.5), `nwf_confidence = 65`, `liquidity_score = 4`
and `nwf_robust_score = round(5.4 * 0.65, 2) = 3.51`. -/
theorem empty_record_metrics :
    (process_stock emptyStock).nwf_score = some 5.4 ∧
    (process_stock emptyStock).nwf_confidence = some 65 ∧
    (process_stock emptyStock).liquidity_score = some 4 ∧
    (process_stock emptyStock).nwf_robust_score = some (round2 (5.4 * (65 / 100))) ∧
    round2 (5.4 * (65 / 100)) = 3.51 := by
  refine ⟨?_, ?_, ?_, ?_, ?_⟩ <;>
    norm_num [process_stock, calculate_nwf_score, trendScore, macdScore, rsiScore,
      volatilityScore, volSpikeScore, aiScore, calculate_confidence, confidenceBase,
      truncInt, calculate_liquidity_score, round2, roundHalfEven, emptyStock]

/-- C8: processing the fully-populated example record yields
`nwf_score = 9.8`, `nwf_confidence = 95` (clamped), `liquidity_score = 9`
and `nwf_robust_score = round(9.8 * 0.95, 2) = 9.31`. -/
theorem full_record_metrics :
    (process_stock fullStock).nwf_score = some 9.8 ∧
    (process_stock fullStock).nwf_confidence = some 95 ∧
    (process_stock fullStock).liquidity_score = some 9 ∧
    (process_stock fullStock).nwf_robust_score = some (round2 (9.8 * (95 / 100))) ∧
    round2 (9.8 * (95 / 100)) = 9.31 := by
  refine ⟨?_, ?_, ?_, ?_, ?_⟩ <;>
    norm_num [process_stock, calculate_nwf_score, trendScore, macdScore, rsiScore,
      volatilityScore, volSpikeScore, aiScore, calculate_confidence, confidenceBase,
      truncInt, calculate_liquidity_score, round2, roundHalfEven, fullStock]

/-- C6: the AI-ensemble component is `ai_confidence / 100` with no
clamping — a record with `ai_confidence = 200` and all other signals at
their maxima has AI component `2 > 1` and `nwf_score = 11 > 10`. -/
theorem ai_component_unclamped :
    ∃ s : Stock, 100 < s.ai_confidence.getD 50 ∧ 1 < aiScore s ∧
      10 < calculate_nwf_score s := by
  refine ⟨hotStock, ?_, ?_, ?_⟩ <;>
    norm_num [hotStock, aiScore, calculate_nwf_score, trendScore, macdScore,
      rsiScore, volatilityScore, volSpikeScore, round2, roundHalfEven]

/-- C7: `liquidity_score` always lies in `{4,5,6,7,8,9}` and is
monotonically non-decreasing in `avg_volume`. -/
theorem liquidity_ladder_range_mono (s t : Stock)
    (h : s.avg_volume.getD 0 ≤ t.avg_volume.getD 0) :
    (calculate_liquidity_score s = 4 ∨ calculate_liquidity_score s = 5 ∨
     calculate_liquidity_score s = 6 ∨ calculate_liquidity_score s = 7 ∨
     calculate_liquidity_score s = 8 ∨ calculate_liquidity_score s = 9) ∧
    calculate_liquidity_score s ≤ calculate_liquidity_score t := by
  constructor
  · simp only [calculate_liquidity_score]
    split_ifs <;> norm_num
  · simp only [calculate_liquidity_score]
    split_ifs <;> first | (exfalso; push_neg at *; linarith) | norm_num

/-- C7 witness: `avg_volume` 60000 gives tier 5, 250000 gives tier 7,
and the monotonicity instance holds at this concrete pair. -/
theorem liquidity_ladder_range_mono_witness :
    lowVolStock.avg_volume.getD 0 ≤ highVolStock.avg_volume.getD 0 ∧
    ((calculate_liquidity_score lowVolStock = 4 ∨ calculate_liquidity_score lowVolStock = 5 ∨
      calculate_liquidity_score lowVolStock = 6 ∨ calculate_liquidity_score lowVolStock = 7 ∨
      calculate_liquidity_score lowVolStock = 8 ∨ calculate_liquidity_score lowVolStock = 9) ∧
     calculate_liquidity_score lowVolStock ≤ calculate_liquidity_score highVolStock) :=
  ⟨by decide, liquidity_ladder_range_mono lowVolStock highVolStock (by decide)⟩

/-- The trend signal contributes at least `0.5`. -/
theorem trendScore_ge (s : Stock) : (0.5 : ℚ) ≤ trendScore s := by
  simp only [trendScore]; split_ifs <;> norm_num

/-- The MACD signal contributes at least `0.5`. -/
theorem macdScore_ge (s : Stock) : (0.5 : ℚ) ≤ macdScore s := by
  simp only [macdScore]; split_ifs <;> norm_num

/-- The RSI signal contributes at least `0.5`. -/
theorem rsiScore_ge (s : Stock) : (0.5 : ℚ) ≤ rsiScore s := by
  simp only [rsiScore]; split_ifs <;> norm_num

/-- The volatility signal contributes at least `0.3`. -/
theorem volatilityScore_ge (s : Stock) : (0.3 : ℚ) ≤ volatilityScore s := by
  simp only [volatilityScore]; split_ifs <;> norm_num

/-- The volume-spike signal contributes at least `0.3`. -/
theorem volSpikeScore_ge (s : Stock) : (0.3 : ℚ) ≤ volSpikeScore s := by
  simp only [volSpikeScore]; split_ifs <;> norm_num

/-- A lower bound survives two-decimal rounding: if `q ≤ 100 * x` then
`q / 100 ≤ round2 x`. -/
theorem round2_ge (x : ℚ) (q : ℤ) (h : (q : ℚ) ≤ x * 100) :
    (q : ℚ) / 100 ≤ round2 x := by
  have hq : q ≤ ⌊x * 100⌋ := Int.le_floor.mpr h
  have hq' : (q : ℚ) ≤ (⌊x * 100⌋ : ℚ) := by exact_mod_cast hq
  simp only [round2, roundHalfEven]
  split_ifs <;> push_cast <;> linarith

/-- C10: whenever `ai_ensemble.confidence` is non-negative, `nwf_score`
is at least `2.1` — the five threshold ladders each contribute a strictly
positive minimum (0.5 + 0.5 + 0.5 + 0.3 + 0.3) and the AI component is
non-negative — so the lower end 0 of the stated `[0, 10]` range is never
attained. -/
theorem nwf_score_lower_bound (s : Stock) (h : 0 ≤ s.ai_confidence.getD 50) :
    (2.1 : ℚ) ≤ calculate_nwf_score s ∧ 0 < calculate_nwf_score s := by
  have hai : (0 : ℚ) ≤ aiScore s := mul_nonneg (div_nonneg h (by norm_num)) (by norm_num)
  have h1 := trendScore_ge s
  have h2 := macdScore_ge s
  have h3 := rsiScore_ge s
  have h4 := volatilityScore_ge s
  have h5 := volSpikeScore_ge s
  have key : ((210 : ℤ) : ℚ) / 100 ≤ round2 (0.0 + trendScore s + macdScore s
      + rsiScore s + volatilityScore s + volSpikeScore s + aiScore s) :=
    round2_ge _ 210 (by push_cast; norm_num at h1 h2 h3 h4 h5 ⊢; linarith)
  have key2 : (2.1 : ℚ) ≤ calculate_nwf_score s := by
    unfold calculate_nwf_score
    push_cast at key
    linarith
  exact ⟨key2, by linarith⟩

/-- C10 witness: the all-default record has `ai_confidence` default 50 ≥ 0
and its `nwf_score` (= 5.4) is at least 2.1, hence positive. -/
theorem nwf_score_lower_bound_witness :
    0 ≤ emptyStock.ai_confidence.getD 50 ∧
    ((2.1 : ℚ) ≤ calculate_nwf_score emptyStock ∧ 0 < calculate_nwf_score emptyStock) :=
  ⟨by decide, nwf_score_lower_bound emptyStock (by decide)⟩

/-- C1: the `stocks` list written to the output file is NOT sorted by
`nwf_robust_score` descending — `main` computes `stocks_sorted` but
`json.dump` writes `data`, whose `stocks` list was mutated in place and
never reordered.  On the two-record input `[emptyStock, fullStock]` the
written list carries robust scores `[3.51, 9.31]` (ascending), while the
sorted list `stocks_sorted`, used only for the console top-10 report,
carries `[9.31, 3.51]`. -/
theorem written_stocks_not_sorted :
    (writtenStocks pipelineInput).map robustKey = [3.51, 9.31] ∧
    (stocks_sorted pipelineInput).map robustKey = [9.31, 3.51] ∧
    ¬ SortedDescByRobust (writtenStocks pipelineInput) := by
  have he : robustKey (process_stock emptyStock) = 3.51 := by
    norm_num [robustKey, process_stock, calculate_nwf_score, trendScore, macdScore,
      rsiScore, volatilityScore, volSpikeScore, aiScore, calculate_confidence,
      confidenceBase, truncInt, calculate_liquidity_score, round2, roundHalfEven,
      emptyStock]
  have hf : robustKey (process_stock fullStock) = 9.31 := by
    norm_num [robustKey, process_stock, calculate_nwf_score, trendScore, macdScore,
      rsiScore, volatilityScore, volSpikeScore, aiScore, calculate_confidence,
      confidenceBase, truncInt, calculate_liquidity_score, round2, roundHalfEven,
      fullStock]
  refine ⟨?_, ?_, ?_⟩
  · simp [writtenStocks, processStocks, pipelineInput, he, hf]
  · simp only [stocks_sorted, processStocks, pipelineInput, List.map_cons,
      List.map_nil, sortByRobustDesc, insertDesc]
    rw [if_neg (by rw [he, hf]; norm_num)]
    simp [insertDesc, he, hf]
  · intro hs
    simp only [SortedDescByRobust, writtenStocks, processStocks, pipelineInput,
      List.map_cons, List.map_nil, List.chain'_cons, List.chain'_singleton] at hs
    rw [he, hf] at hs
    norm_num at hs
